import Mathlib

set_option autoImplicit false

/-!
Shallow embedding of `src/experiment.py` (class `Experiment`) from the
repository `regularization-algorithms-last-layer-test`.

The file is a thin orchestration wrapper over an external continual-learning
framework.  We embed:

* the command-line argument record (`Args`),
* the benchmark record returned by the framework (`Benchmark`), with its
  `train_stream` of experiences,
* a concrete model of PyTorch modules: a model is two lists of parameters
  (feature extractor and classifier), each parameter carrying its data
  (a flat list of integers standing for the tensor contents) and its
  `requires_grad` flag,
* the name-to-object dispatchers `get_benchmark` and `get_strategy`
  (framework constructors are embedded as records of the constructor kind
  and the arguments passed to it),
* the method `check_if_feature_extractor_is_unchanged`,
* the training loop `run_experiment`, as a function from the arguments,
  the benchmark, the initial model, and abstract framework behaviours
  (the parameter updates performed by each `train` call and the result
  tokens produced by each `eval` call) to an outcome record holding the
  emitted event trace, the final model, the accumulated results list and
  the returned value.

A `train` call of the framework performs optimizer steps: it may modify
exactly the parameters whose `requires_grad` flag is set, which we model by
applying an arbitrary update function to the data of every parameter with
`requiresGrad = true` and leaving the other parameters untouched.
Python call arity is modelled explicitly where it matters: the method
`check_if_feature_extractor_is_unchanged` is defined with two parameters
(`self`, `frozen_model`) but its only call site passes three positional
arguments (`self`, `self.model`, `frozen_model`), which in Python raises a
`TypeError` before the method body runs.
-/

/-- The command-line argument namespace, with the fields `experiment.py`
reads.  Real-valued hyperparameters are represented by integers: the wrapper
only forwards them unchanged, so their arithmetic nature never matters. -/
structure Args where
  dataset : String
  strategy : String
  cpu : Bool
  learning_rate : Int
  experiences : Nat
  batch_size : Nat
  epochs : Nat
  last_layer_epochs : Nat
  ewc_lambda : Int
  ewc_mode : String
  ewc_decay_factor : Int
  ewc_keep_importance_data : Bool
  lwf_alpha : Int
  lwf_temperature : Int
  si_lambda : Int
  si_eps : Int
  icarl_memory_size : Nat
  deriving DecidableEq

/-- One experience of the benchmark train stream, with the attributes the
loop reads. -/
structure Experience where
  current_experience : Nat
  classes_in_this_experience : List Nat
  deriving DecidableEq

/-- The benchmark object resolved by `get_benchmark`: an ordered train
stream of experiences, a test stream (only ever passed whole to `eval`, so
it needs no structure here) and the number of classes. -/
structure Benchmark where
  train_stream : List Experience
  n_classes : Nat
  deriving DecidableEq

/-- One PyTorch parameter tensor: its data (flattened contents) and its
`requires_grad` flag. -/
structure Param where
  data : List Int
  requiresGrad : Bool
  deriving DecidableEq

/-- The model built by `make_icarl_net`, as the wrapper sees it: a
`feature_extractor` module and a `classifier` module, each a list of
parameters. -/
structure Model where
  feature_extractor : List Param
  classifier : List Param
  deriving DecidableEq

/-- One optimizer step of a `train` call, on a single parameter: the update
`u` is applied exactly when the parameter has `requires_grad = True`. -/
def Param.update (u : List Int → List Int) (p : Param) : Param :=
  if p.requiresGrad then { p with data := u p.data } else p

/-- Effect of a framework `train` call on the model: every parameter with
`requires_grad = True` is updated by `u`, every other parameter is left
unchanged. -/
def Model.trainUpdate (u : List Int → List Int) (m : Model) : Model :=
  { feature_extractor := m.feature_extractor.map (Param.update u),
    classifier := m.classifier.map (Param.update u) }

/-- `module.requires_grad_(False)` on the feature extractor: clears the
flag of each of its parameters. -/
def Model.freezeFeatureExtractor (m : Model) : Model :=
  { m with feature_extractor :=
      m.feature_extractor.map (fun p => { p with requiresGrad := false }) }

/-- The benchmark classes `get_benchmark` can construct. -/
inductive BenchmarkKind where
  | SplitCIFAR100
  | SplitMNIST
  | SplitCUB200
  deriving DecidableEq

/-- A benchmark constructor call: which class, and the `n_experiences`
argument passed to it. -/
structure BenchmarkCtor where
  kind : BenchmarkKind
  n_experiences : Nat
  deriving DecidableEq

/-- `Experiment.get_benchmark`: dispatch on `args.dataset`.  An `if`/`elif`
chain with no `else` returns `None` in Python when no branch matches. -/
def get_benchmark (args : Args) : Option BenchmarkCtor :=
  if args.dataset = "CIFAR100" then
    some { kind := BenchmarkKind.SplitCIFAR100, n_experiences := args.experiences }
  else if args.dataset = "MNIST" then
    some { kind := BenchmarkKind.SplitMNIST, n_experiences := args.experiences }
  else if args.dataset = "CUB200" then
    some { kind := BenchmarkKind.SplitCUB200, n_experiences := args.experiences }
  else
    none

/-- References to the attributes of the `Experiment` object that
`get_strategy` passes to the framework constructors. -/
inductive ObjRef where
  | selfModel
  | selfOptimizer
  | selfEvalPlugin
  | selfDevice
  | selfPlugins
  | selfModelFeatureExtractor
  | selfModelClassifier
  deriving DecidableEq

/-- The loss criterion passed to the strategy constructors. -/
inductive Criterion where
  | CrossEntropyLoss
  deriving DecidableEq

/-- The keyword arguments common to the non-iCaRL strategy constructors. -/
structure BaseKwargs where
  model : ObjRef
  optimizer : ObjRef
  criterion : Criterion
  train_mb_size : Nat
  eval_mb_size : Nat
  train_epochs : Nat
  evaluator : ObjRef
  device : ObjRef
  plugins : ObjRef
  deriving DecidableEq

/-- A strategy constructor call: which framework class, with the arguments
passed to it. -/
inductive StrategyCtor where
  | JointTraining (base : BaseKwargs)
  | Naive (base : BaseKwargs)
  | EWC (base : BaseKwargs) (ewc_lambda : Int) (mode : String)
      (decay_factor : Int) (keep_importance_data : Bool)
  | LwF (base : BaseKwargs) (alpha : Int) (temperature : Int)
  | SynapticIntelligence (base : BaseKwargs) (si_lambda : Int) (eps : Int)
  | ICaRL (feature_extractor : ObjRef) (classifier : ObjRef)
      (optimizer : ObjRef) (train_mb_size : Nat) (eval_mb_size : Nat)
      (train_epochs : Nat) (evaluator : ObjRef) (device : ObjRef)
      (plugins : ObjRef) (memory_size : Nat) (fixed_memory : Bool)
      (buffer_transform : Option Unit)
  deriving DecidableEq

/-- `Experiment.get_strategy`: dispatch on `args.strategy`, forwarding the
hyperparameters of each branch exactly as the source does.  No matching
branch means Python returns `None`. -/
def get_strategy (args : Args) : Option StrategyCtor :=
  if args.strategy = "JOINT" then
    some (StrategyCtor.JointTraining
      { model := ObjRef.selfModel, optimizer := ObjRef.selfOptimizer,
        criterion := Criterion.CrossEntropyLoss,
        train_mb_size := args.batch_size, eval_mb_size := args.batch_size,
        train_epochs := args.epochs, evaluator := ObjRef.selfEvalPlugin,
        device := ObjRef.selfDevice, plugins := ObjRef.selfPlugins })
  else if args.strategy = "NAIVE" then
    some (StrategyCtor.Naive
      { model := ObjRef.selfModel, optimizer := ObjRef.selfOptimizer,
        criterion := Criterion.CrossEntropyLoss,
        train_mb_size := args.batch_size, eval_mb_size := args.batch_size,
        train_epochs := args.epochs, evaluator := ObjRef.selfEvalPlugin,
        device := ObjRef.selfDevice, plugins := ObjRef.selfPlugins })
  else if args.strategy = "EWC" then
    some (StrategyCtor.EWC
      { model := ObjRef.selfModel, optimizer := ObjRef.selfOptimizer,
        criterion := Criterion.CrossEntropyLoss,
        train_mb_size := args.batch_size, eval_mb_size := args.batch_size,
        train_epochs := args.epochs, evaluator := ObjRef.selfEvalPlugin,
        device := ObjRef.selfDevice, plugins := ObjRef.selfPlugins }
      args.ewc_lambda args.ewc_mode args.ewc_decay_factor
      args.ewc_keep_importance_data)
  else if args.strategy = "LWF" then
    some (StrategyCtor.LwF
      { model := ObjRef.selfModel, optimizer := ObjRef.selfOptimizer,
        criterion := Criterion.CrossEntropyLoss,
        train_mb_size := args.batch_size, eval_mb_size := args.batch_size,
        train_epochs := args.epochs, evaluator := ObjRef.selfEvalPlugin,
        device := ObjRef.selfDevice, plugins := ObjRef.selfPlugins }
      args.lwf_alpha args.lwf_temperature)
  else if args.strategy = "SI" then
    some (StrategyCtor.SynapticIntelligence
      { model := ObjRef.selfModel, optimizer := ObjRef.selfOptimizer,
        criterion := Criterion.CrossEntropyLoss,
        train_mb_size := args.batch_size, eval_mb_size := args.batch_size,
        train_epochs := args.epochs, evaluator := ObjRef.selfEvalPlugin,
        device := ObjRef.selfDevice, plugins := ObjRef.selfPlugins }
      args.si_lambda args.si_eps)
  else if args.strategy = "ICARL" then
    some (StrategyCtor.ICaRL
      ObjRef.selfModelFeatureExtractor ObjRef.selfModelClassifier
      ObjRef.selfOptimizer args.batch_size args.batch_size args.epochs
      ObjRef.selfEvalPlugin ObjRef.selfDevice ObjRef.selfPlugins
      args.icarl_memory_size true none)
  else
    none

/-- The `make_icarl_net(num_classes=..., n=5, c=n_channels)` constructor
call made in `Experiment.__init__`. -/
structure ModelCtor where
  num_classes : Nat
  n : Nat
  c : Nat
  deriving DecidableEq

/-- The model construction of `Experiment.__init__`:
`n_channels = 1 if args.dataset == 'MNIST' else 3`, then
`make_icarl_net(num_classes=self.benchmark.n_classes, n=5, c=n_channels)`.
`n_classes` is the `n_classes` attribute of the already-resolved
benchmark. -/
def init_model (args : Args) (n_classes : Nat) : ModelCtor :=
  { num_classes := n_classes, n := 5,
    c := if args.dataset = "MNIST" then 1 else 3 }

/-- Elementwise `ne` of two tensors, `p1.data.ne(p2.data)`: a boolean
tensor marking the positions where the entries differ.  (The two tensors
compared in the source are a model and its deep copy, so they have the same
shape; on lists the comparison runs over the common prefix.) -/
def tensorNe (xs ys : List Int) : List Bool :=
  (xs.zip ys).map (fun q => decide (q.1 ≠ q.2))

/-- `.sum()` of a boolean tensor: the number of `True` entries. -/
def boolSum (bs : List Bool) : Nat :=
  (bs.map (fun b => if b then 1 else 0)).sum

/-- The body of `check_if_feature_extractor_is_unchanged`: iterate over the
zipped parameter lists and return `False` as soon as one pair differs
somewhere, `True` when the loop finishes. -/
def checkLoop : List (Param × Param) → Bool
  | [] => true
  | p :: rest =>
      if 0 < boolSum (tensorNe p.1.data p.2.data) then false else checkLoop rest

/-- `Experiment.check_if_feature_extractor_is_unchanged`: compares
`self.model.feature_extractor.parameters()` with
`frozen_model.feature_extractor.parameters()` pairwise (Python `zip`
truncates to the shorter sequence). -/
def check_if_feature_extractor_is_unchanged (model frozen_model : Model) : Bool :=
  checkLoop (model.feature_extractor.zip frozen_model.feature_extractor)

/-- Number of parameters in the `def` of
`check_if_feature_extractor_is_unchanged`: `(self, frozen_model)`. -/
def checkMethodParamCount : Nat := 2

/-- Number of positional arguments at its only call site,
`self.check_if_feature_extractor_is_unchanged(self.model, frozen_model)`:
the implicit `self` plus the two explicit arguments. -/
def checkCallSiteArgCount : Nat := 3

/-- The exceptions our embedding can surface. -/
inductive PyErr where
  | typeError (msg : String)
  deriving DecidableEq

/-- The message of the `TypeError` Python raises at that call site. -/
def checkTypeErrorMsg : String :=
  "check_if_feature_extractor_is_unchanged() takes 2 positional arguments but 3 were given"

/-- The call `self.check_if_feature_extractor_is_unchanged(self.model,
frozen_model)` with Python call-arity semantics: the method body runs only
if the number of arguments supplied matches the number of parameters of the
`def`; otherwise the call raises `TypeError` before the body is entered. -/
def callCheck (model frozen : Model) : Except PyErr Bool :=
  if checkCallSiteArgCount = checkMethodParamCount then
    Except.ok (check_if_feature_extractor_is_unchanged model frozen)
  else
    Except.error (PyErr.typeError checkTypeErrorMsg)

/-- Observable events of a `run_experiment` run: logger lines and the
framework `train`/`eval` calls.  The two calls made on the post-hoc
`JointTraining` strategy get their own constructors (they are distinct call
sites on a freshly built strategy object). -/
inductive Event where
  | logInfo (msg : String)
  | logError (msg : String)
  | trainStream
  | trainExp (k : Nat)
  | evalTest
  | postTrainStream
  | postEvalTest
  deriving DecidableEq

/-- Whether an event is a framework `train`/`eval` call (as opposed to a
logger line). -/
def Event.isCall : Event → Bool
  | Event.logInfo _ => false
  | Event.logError _ => false
  | _ => true

/-- The two outcome messages of the feature-extractor check. -/
def unchangedMsg : String :=
  "Feature extractors are unchanged in base model and frozen one"

/-- The error-log message for the failed check. -/
def notSameMsg : String :=
  "!!!Feature extractors are not same in base model and frozen one!!!"

instance {ε α : Type} [DecidableEq ε] [DecidableEq α] : DecidableEq (Except ε α) :=
  fun x y =>
    match x, y with
    | Except.ok a, Except.ok b =>
        if h : a = b then isTrue (by rw [h])
        else isFalse (by intro hh; cases hh; exact h rfl)
    | Except.ok _, Except.error _ => isFalse (by intro hh; cases hh)
    | Except.error _, Except.ok _ => isFalse (by intro hh; cases hh)
    | Except.error e, Except.error f =>
        if h : e = f then isTrue (by rw [h])
        else isFalse (by intro hh; cases hh; exact h rfl)

/-- Everything observable about one `run_experiment` call: the event
trace, the final state of `self.model`, the local `results` list (eval
results represented by the tokens the eval behaviour produced), the
outcome (`Except.ok none` is a normal return of Python `None`; `Except.ok
(some rs)` would be returning a results list; `Except.error` is an
uncaught exception), and the local `frozen_model` when one was created. -/
structure RunOutcome where
  events : List Event
  model : Model
  results : List Nat
  ret : Except PyErr (Option (List Nat))
  frozenModel : Option Model
  deriving DecidableEq

/-- `Experiment.run_experiment`, parametrised by the framework behaviours
it delegates to: `uJoint` is the parameter update performed by
`self.strategy.train(train_stream)` on the JOINT path, `uExp i` the update
of the `i`-th loop iteration's `self.strategy.train(experience)`, `uPost`
the update of the post-hoc `JointTraining` strategy's `train`; `evJoint`,
`evExp i`, `evPost` are the result tokens of the corresponding `eval`
calls.  Each `train` call updates exactly the parameters of the live model
that have `requires_grad = True`. -/
def run_experiment (args : Args) (bench : Benchmark) (m0 : Model)
    (uJoint : List Int → List Int) (uExp : Nat → List Int → List Int)
    (uPost : List Int → List Int)
    (evJoint : Nat) (evExp : Nat → Nat) (evPost : Nat) : RunOutcome :=
  if args.strategy = "JOINT" then
    { events := [Event.logInfo "Starting experiment...",
                 Event.logInfo "JOINT TRAINING - UPPER BOUND",
                 Event.trainStream,
                 Event.logInfo "EVAL ON JOINT TRAINING",
                 Event.evalTest],
      model := Model.trainUpdate uJoint m0,
      results := [evJoint],
      ret := Except.ok none,
      frozenModel := none }
  else
    let loopEvents := (bench.train_stream.enum).bind (fun p =>
      [Event.logInfo ("Start of experience: " ++ toString p.2.current_experience),
       Event.logInfo ("Current Classes: " ++ toString p.2.classes_in_this_experience),
       Event.trainExp p.2.current_experience,
       Event.logInfo "Training completed",
       Event.logInfo "Computing accuracy on the whole test set",
       Event.evalTest])
    let mAfterLoop :=
      (bench.train_stream.enum).foldl (fun m p => Model.trainUpdate (uExp p.1) m) m0
    let loopResults := (bench.train_stream.enum).map (fun p => evExp p.1)
    let frozen := Model.freezeFeatureExtractor mAfterLoop
    let mAfterPost := Model.trainUpdate uPost mAfterLoop
    let preCheckEvents :=
      Event.logInfo "Starting experiment..." :: loopEvents ++
      [Event.logInfo "JOINT TRAINING ONLY ON LAST LAYER",
       Event.postTrainStream,
       Event.logInfo "EVAL ON JOINT TRAINING ONLY ON LAST LAYER",
       Event.postEvalTest]
    match callCheck mAfterPost frozen with
    | Except.ok b =>
        { events := preCheckEvents ++
            [if b then Event.logInfo unchangedMsg else Event.logError notSameMsg],
          model := mAfterPost,
          results := loopResults ++ [evPost],
          ret := Except.ok none,
          frozenModel := some frozen }
    | Except.error e =>
        { events := preCheckEvents,
          model := mAfterPost,
          results := loopResults ++ [evPost],
          ret := Except.error e,
          frozenModel := some frozen }

/-- The identity parameter update: a train call that happens to leave every
trainable parameter's value unchanged. -/
def idUpd : List Int → List Int := fun t => t

/-- A parameter update that adds one to every entry: a train call whose
optimizer steps move every trainable parameter. -/
def incrUpd : List Int → List Int := fun t => t.map (fun x => x + 1)

/-- The common keyword arguments every non-iCaRL strategy constructor
receives: `self.model`, `self.optimizer`, `CrossEntropyLoss()`,
`train_mb_size=args.batch_size`, `eval_mb_size=args.batch_size`,
`train_epochs=args.epochs`, `evaluator=self.eval_plugin`,
`device=self.device`, `plugins=self.plugins`. -/
def stdKwargs (args : Args) : BaseKwargs :=
  { model := ObjRef.selfModel, optimizer := ObjRef.selfOptimizer,
    criterion := Criterion.CrossEntropyLoss,
    train_mb_size := args.batch_size, eval_mb_size := args.batch_size,
    train_epochs := args.epochs, evaluator := ObjRef.selfEvalPlugin,
    device := ObjRef.selfDevice, plugins := ObjRef.selfPlugins }

/-- A concrete argument record used to instantiate the general theorems. -/
def argsW : Args :=
  { dataset := "CIFAR100", strategy := "NAIVE", cpu := false, learning_rate := 2,
    experiences := 10, batch_size := 32, epochs := 4, last_layer_epochs := 2,
    ewc_lambda := 1, ewc_mode := "online", ewc_decay_factor := 1,
    ewc_keep_importance_data := true, lwf_alpha := 1, lwf_temperature := 2,
    si_lambda := 1, si_eps := 1, icarl_memory_size := 2000 }

/-- A concrete benchmark with two experiences. -/
def benchW : Benchmark :=
  { train_stream := [{ current_experience := 0, classes_in_this_experience := [0, 1] },
                     { current_experience := 1, classes_in_this_experience := [2, 3] }],
    n_classes := 4 }

/-- A concrete model: one feature-extractor parameter, one classifier
parameter. -/
def modelW1 : Model :=
  { feature_extractor := [{ data := [1, 2], requiresGrad := true }],
    classifier := [{ data := [3], requiresGrad := true }] }

/-- A second concrete model whose feature extractor holds the same data as
`modelW1` with the `requires_grad` flag cleared. -/
def modelW2 : Model :=
  { feature_extractor := [{ data := [1, 2], requiresGrad := false }],
    classifier := [] }

/-- Arguments of a concrete non-JOINT run: the NAIVE strategy on MNIST. -/
def argsNaive : Args :=
  { dataset := "MNIST", strategy := "NAIVE", cpu := true, learning_rate := 1,
    experiences := 1, batch_size := 8, epochs := 1, last_layer_epochs := 1,
    ewc_lambda := 0, ewc_mode := "separate", ewc_decay_factor := 0,
    ewc_keep_importance_data := false, lwf_alpha := 0, lwf_temperature := 0,
    si_lambda := 0, si_eps := 0, icarl_memory_size := 0 }

/-- A benchmark with a single experience. -/
def benchOneExp : Benchmark :=
  { train_stream := [{ current_experience := 0, classes_in_this_experience := [0, 1] }],
    n_classes := 10 }

/-- A model with one feature-extractor parameter and one classifier
parameter, both trainable (the state `make_icarl_net` leaves them in),
both holding the single value `0`. -/
def modelOneParam : Model :=
  { feature_extractor := [{ data := [0], requiresGrad := true }],
    classifier := [{ data := [0], requiresGrad := true }] }

/-- The frozen deep copy the post-hoc step builds from `modelOneParam`:
same values, feature-extractor `requires_grad` cleared. -/
def frozenOneParam : Model :=
  { feature_extractor := [{ data := [0], requiresGrad := false }],
    classifier := [{ data := [0], requiresGrad := true }] }

lemma callCheck_error (m f : Model) :
    callCheck m f = Except.error (PyErr.typeError checkTypeErrorMsg) := rfl

lemma boolSum_ne_map (l : List (Int × Int)) :
    boolSum (l.map (fun q => decide (q.1 ≠ q.2))) = 0 ↔ ∀ q ∈ l, q.1 = q.2 := by
  induction l with
  | nil => simp [boolSum]
  | cons a t ih =>
      by_cases h : a.1 = a.2
      · simpa [boolSum, h] using ih
      · simp [boolSum, h]

lemma tensorNe_sum_zero (xs ys : List Int) :
    boolSum (tensorNe xs ys) = 0 ↔ ∀ q ∈ xs.zip ys, q.1 = q.2 :=
  boolSum_ne_map (xs.zip ys)

lemma checkLoop_eq_true (l : List (Param × Param)) :
    checkLoop l = true ↔ ∀ p ∈ l, boolSum (tensorNe p.1.data p.2.data) = 0 := by
  induction l with
  | nil => simp [checkLoop]
  | cons a t ih =>
      by_cases h : 0 < boolSum (tensorNe a.1.data a.2.data)
      · simp [checkLoop, h, Nat.pos_iff_ne_zero.mp h]
      · have hz : boolSum (tensorNe a.1.data a.2.data) = 0 := Nat.eq_zero_of_not_pos h
        simp [checkLoop, h, hz, ih]

lemma mem_zip_self {α : Type} (l : List α) : ∀ p ∈ l.zip l, p.1 = p.2 := by
  induction l with
  | nil => simp
  | cons a t ih =>
      intro p hp
      rw [List.zip_cons_cons] at hp
      rcases List.mem_cons.mp hp with hp | hp
      · rw [hp]
      · exact ih p hp

lemma enumFrom_bind_snd {α β : Type} (g : α → List β) (n : Nat) (l : List α) :
    (List.enumFrom n l).bind (fun p => g p.2) = l.bind g := by
  induction l generalizing n with
  | nil => rfl
  | cons a t ih =>
      show g a ++ (List.enumFrom (n + 1) t).bind (fun p => g p.2) = g a ++ t.bind g
      rw [ih]

lemma enum_bind_snd {α β : Type} (g : α → List β) (l : List α) :
    (l.enum).bind (fun p => g p.2) = l.bind g :=
  enumFrom_bind_snd g 0 l

lemma bind_filter {α β : Type} (q : β → Bool) (f : α → List β) (l : List α) :
    (l.bind f).filter q = l.bind (fun a => (f a).filter q) := by
  induction l with
  | nil => rfl
  | cons a t ih =>
      show ((f a) ++ t.bind f).filter q = (f a).filter q ++ t.bind (fun a => (f a).filter q)
      rw [List.filter_append, ih]

lemma enum_map_fst_comp {α β : Type} (g : Nat → β) (l : List α) :
    (l.enum).map (fun p => g p.1) = (List.range l.length).map g := by
  rw [show (fun p : Nat × α => g p.1) = g ∘ Prod.fst from rfl, ← List.map_map,
    List.enum_map_fst]

/-- Claim C1 (the code violates the claim): on a non-JOINT run whose loop
training leaves the model unchanged and whose post-hoc joint training adds
one to every trainable parameter, the live model's feature extractor ends
the post-hoc step at `[1]`, different from its value `[0]` just before the
step — `requires_grad_(False)` was applied to the deep copy only, so the
live feature extractor stayed trainable and was updated.  The code's own
equality check (were it callable) would report the mismatch. -/
theorem posthoc_step_modifies_live_feature_extractor :
    (run_experiment argsNaive benchOneExp modelOneParam idUpd (fun _ => idUpd)
        incrUpd 0 (fun _ => 0) 0).model.feature_extractor
      = [{ data := [1], requiresGrad := true }]
    ∧ modelOneParam.feature_extractor = [{ data := [0], requiresGrad := true }]
    ∧ (run_experiment argsNaive benchOneExp modelOneParam idUpd (fun _ => idUpd)
        incrUpd 0 (fun _ => 0) 0).model.feature_extractor
      ≠ modelOneParam.feature_extractor
    ∧ (run_experiment argsNaive benchOneExp modelOneParam idUpd (fun _ => idUpd)
        incrUpd 0 (fun _ => 0) 0).frozenModel = some frozenOneParam
    ∧ check_if_feature_extractor_is_unchanged
        (run_experiment argsNaive benchOneExp modelOneParam idUpd (fun _ => idUpd)
          incrUpd 0 (fun _ => 0) 0).model frozenOneParam = false := by decide

/-- Claim C2 (the code violates the claim): on a non-JOINT run the call
`self.check_if_feature_extractor_is_unchanged(self.model, frozen_model)`
passes three positional arguments to a method whose `def` has two
parameters, so `run_experiment` ends in an uncaught `TypeError` and neither
of the two outcome messages is ever logged. -/
theorem posthoc_check_call_raises_type_error :
    (run_experiment argsNaive benchOneExp modelOneParam idUpd (fun _ => idUpd)
        incrUpd 0 (fun _ => 0) 0).ret
      = Except.error (PyErr.typeError checkTypeErrorMsg)
    ∧ Event.logInfo unchangedMsg ∉
        (run_experiment argsNaive benchOneExp modelOneParam idUpd (fun _ => idUpd)
          incrUpd 0 (fun _ => 0) 0).events
    ∧ Event.logError notSameMsg ∉
        (run_experiment argsNaive benchOneExp modelOneParam idUpd (fun _ => idUpd)
          incrUpd 0 (fun _ => 0) 0).events := by decide

/-- Claim C3: on every non-JOINT run, `run_experiment` walks the benchmark
train stream in order, making one `train` call on the single experience and
then one `eval` call on the whole test stream per experience, appending each
eval result to the results list (the two trailing calls are the post-hoc
step). -/
theorem run_experiment_per_experience_train_eval
    (args : Args) (bench : Benchmark) (m0 : Model)
    (uJoint : List Int → List Int) (uExp : Nat → List Int → List Int)
    (uPost : List Int → List Int)
    (evJoint : Nat) (evExp : Nat → Nat) (evPost : Nat)
    (h : args.strategy ≠ "JOINT") :
    ((run_experiment args bench m0 uJoint uExp uPost evJoint evExp evPost).events.filter
        Event.isCall
      = bench.train_stream.bind
          (fun e => [Event.trainExp e.current_experience, Event.evalTest])
        ++ [Event.postTrainStream, Event.postEvalTest])
    ∧ (run_experiment args bench m0 uJoint uExp uPost evJoint evExp evPost).results
      = (List.range bench.train_stream.length).map evExp ++ [evPost] := by
  constructor
  · simp only [run_experiment, if_neg h, callCheck_error]
    rw [← enum_bind_snd (fun e => [Event.trainExp e.current_experience, Event.evalTest])
      bench.train_stream]
    simp [Event.isCall, List.filter_append, bind_filter]
  · simp only [run_experiment, if_neg h, callCheck_error]
    rw [enum_map_fst_comp]

theorem run_experiment_per_experience_train_eval_witness :
    ((run_experiment argsW benchW modelW1 idUpd (fun _ => idUpd) idUpd
        7 (fun k => k) 9).events.filter Event.isCall
      = benchW.train_stream.bind
          (fun e => [Event.trainExp e.current_experience, Event.evalTest])
        ++ [Event.postTrainStream, Event.postEvalTest])
    ∧ (run_experiment argsW benchW modelW1 idUpd (fun _ => idUpd) idUpd
        7 (fun k => k) 9).results
      = (List.range benchW.train_stream.length).map (fun k => k) ++ [9] :=
  run_experiment_per_experience_train_eval argsW benchW modelW1 idUpd
    (fun _ => idUpd) idUpd 7 (fun k => k) 9 (by decide)

/-- Claim C4: the post-hoc last-layer step happens exactly on the non-JOINT
runs; a JOINT run makes exactly one `train` call on the whole train stream
and one `eval` call on the test stream, collects that single eval result,
and returns `None` without entering the per-experience loop or the
post-hoc step. -/
theorem posthoc_step_iff_not_joint
    (args : Args) (bench : Benchmark) (m0 : Model)
    (uJoint : List Int → List Int) (uExp : Nat → List Int → List Int)
    (uPost : List Int → List Int)
    (evJoint : Nat) (evExp : Nat → Nat) (evPost : Nat) :
    (Event.postTrainStream ∈
        (run_experiment args bench m0 uJoint uExp uPost evJoint evExp evPost).events
      ↔ args.strategy ≠ "JOINT")
    ∧ (args.strategy = "JOINT" →
        (run_experiment args bench m0 uJoint uExp uPost evJoint evExp evPost).events.filter
            Event.isCall
          = [Event.trainStream, Event.evalTest]
        ∧ (run_experiment args bench m0 uJoint uExp uPost evJoint evExp evPost).results
          = [evJoint]
        ∧ (run_experiment args bench m0 uJoint uExp uPost evJoint evExp evPost).ret
          = Except.ok none) := by
  by_cases h : args.strategy = "JOINT"
  · refine ⟨⟨fun hmem => ?_, fun hne => absurd h hne⟩,
      fun _ => ⟨?_, ?_, ?_⟩⟩ <;> simp_all [run_experiment, Event.isCall]
  · refine ⟨⟨fun _ => h, fun _ => ?_⟩, fun hj => absurd hj h⟩
    simp [run_experiment, if_neg h, callCheck_error]

theorem posthoc_step_iff_not_joint_witness :
    (Event.postTrainStream ∈
        (run_experiment argsW benchW modelW1 idUpd (fun _ => idUpd) idUpd
          7 (fun k => k) 9).events
      ↔ argsW.strategy ≠ "JOINT")
    ∧ ((run_experiment { argsW with strategy := "JOINT" } benchW modelW1 idUpd
          (fun _ => idUpd) idUpd 7 (fun k => k) 9).events.filter Event.isCall
        = [Event.trainStream, Event.evalTest]
      ∧ (run_experiment { argsW with strategy := "JOINT" } benchW modelW1 idUpd
          (fun _ => idUpd) idUpd 7 (fun k => k) 9).results = [7]
      ∧ (run_experiment { argsW with strategy := "JOINT" } benchW modelW1 idUpd
          (fun _ => idUpd) idUpd 7 (fun k => k) 9).ret = Except.ok none) :=
  ⟨(posthoc_step_iff_not_joint argsW benchW modelW1 idUpd (fun _ => idUpd)
      idUpd 7 (fun k => k) 9).1,
   (posthoc_step_iff_not_joint { argsW with strategy := "JOINT" } benchW modelW1
      idUpd (fun _ => idUpd) idUpd 7 (fun k => k) 9).2 rfl⟩

/-- Claim C5: `get_benchmark` resolves the dataset name to the matching
benchmark class, always constructed with `n_experiences = args.experiences`. -/
theorem get_benchmark_resolves_dataset (args : Args) :
    (args.dataset = "CIFAR100" → get_benchmark args
        = some { kind := BenchmarkKind.SplitCIFAR100, n_experiences := args.experiences })
    ∧ (args.dataset = "MNIST" → get_benchmark args
        = some { kind := BenchmarkKind.SplitMNIST, n_experiences := args.experiences })
    ∧ (args.dataset = "CUB200" → get_benchmark args
        = some { kind := BenchmarkKind.SplitCUB200, n_experiences := args.experiences }) := by
  refine ⟨fun h => ?_, fun h => ?_, fun h => ?_⟩ <;> simp [get_benchmark, h]

theorem get_benchmark_resolves_dataset_witness :
    get_benchmark argsW
      = some { kind := BenchmarkKind.SplitCIFAR100, n_experiences := 10 }
    ∧ get_benchmark { argsW with dataset := "MNIST" }
      = some { kind := BenchmarkKind.SplitMNIST, n_experiences := 10 }
    ∧ get_benchmark { argsW with dataset := "CUB200" }
      = some { kind := BenchmarkKind.SplitCUB200, n_experiences := 10 } :=
  ⟨(get_benchmark_resolves_dataset argsW).1 rfl,
   (get_benchmark_resolves_dataset { argsW with dataset := "MNIST" }).2.1 rfl,
   (get_benchmark_resolves_dataset { argsW with dataset := "CUB200" }).2.2 rfl⟩

/-- Claim C6: `get_strategy` resolves each strategy name to the matching
framework constructor with that strategy's hyperparameters from the
command-line arguments; every non-iCaRL strategy receives the model,
optimizer, `CrossEntropyLoss`, the batch sizes, the epochs, the evaluator
and the device, while `ICaRL` is built from the model's feature extractor
and classifier with `memory_size` and `fixed_memory=True`. -/
theorem get_strategy_resolves_strategy (args : Args) :
    (args.strategy = "JOINT" → get_strategy args
        = some (StrategyCtor.JointTraining (stdKwargs args)))
    ∧ (args.strategy = "NAIVE" → get_strategy args
        = some (StrategyCtor.Naive (stdKwargs args)))
    ∧ (args.strategy = "EWC" → get_strategy args
        = some (StrategyCtor.EWC (stdKwargs args) args.ewc_lambda args.ewc_mode
            args.ewc_decay_factor args.ewc_keep_importance_data))
    ∧ (args.strategy = "LWF" → get_strategy args
        = some (StrategyCtor.LwF (stdKwargs args) args.lwf_alpha args.lwf_temperature))
    ∧ (args.strategy = "SI" → get_strategy args
        = some (StrategyCtor.SynapticIntelligence (stdKwargs args)
            args.si_lambda args.si_eps))
    ∧ (args.strategy = "ICARL" → get_strategy args
        = some (StrategyCtor.ICaRL ObjRef.selfModelFeatureExtractor
            ObjRef.selfModelClassifier ObjRef.selfOptimizer args.batch_size
            args.batch_size args.epochs ObjRef.selfEvalPlugin ObjRef.selfDevice
            ObjRef.selfPlugins args.icarl_memory_size true none)) := by
  refine ⟨fun h => ?_, fun h => ?_, fun h => ?_, fun h => ?_, fun h => ?_, fun h => ?_⟩ <;>
    simp [get_strategy, stdKwargs, h]

theorem get_strategy_resolves_strategy_witness :
    get_strategy { argsW with strategy := "JOINT" }
      = some (StrategyCtor.JointTraining (stdKwargs argsW))
    ∧ get_strategy argsW = some (StrategyCtor.Naive (stdKwargs argsW))
    ∧ get_strategy { argsW with strategy := "EWC" }
      = some (StrategyCtor.EWC (stdKwargs argsW) 1 "online" 1 true)
    ∧ get_strategy { argsW with strategy := "LWF" }
      = some (StrategyCtor.LwF (stdKwargs argsW) 1 2)
    ∧ get_strategy { argsW with strategy := "SI" }
      = some (StrategyCtor.SynapticIntelligence (stdKwargs argsW) 1 1)
    ∧ get_strategy { argsW with strategy := "ICARL" }
      = some (StrategyCtor.ICaRL ObjRef.selfModelFeatureExtractor
          ObjRef.selfModelClassifier ObjRef.selfOptimizer 32 32 4
          ObjRef.selfEvalPlugin ObjRef.selfDevice ObjRef.selfPlugins 2000 true none) :=
  ⟨(get_strategy_resolves_strategy { argsW with strategy := "JOINT" }).1 rfl,
   (get_strategy_resolves_strategy argsW).2.1 rfl,
   (get_strategy_resolves_strategy { argsW with strategy := "EWC" }).2.2.1 rfl,
   (get_strategy_resolves_strategy { argsW with strategy := "LWF" }).2.2.2.1 rfl,
   (get_strategy_resolves_strategy { argsW with strategy := "SI" }).2.2.2.2.1 rfl,
   (get_strategy_resolves_strategy { argsW with strategy := "ICARL" }).2.2.2.2.2 rfl⟩

/-- Claim C7: the model is built with `n_channels = 1` exactly for the
MNIST dataset and `3` for every other dataset name, and with `num_classes`
equal to the resolved benchmark's `n_classes`. -/
theorem init_model_channels_and_classes (args : Args) (n_classes : Nat) :
    (args.dataset = "MNIST" → (init_model args n_classes).c = 1)
    ∧ (args.dataset ≠ "MNIST" → (init_model args n_classes).c = 3)
    ∧ (init_model args n_classes).num_classes = n_classes := by
  refine ⟨fun h => ?_, fun h => ?_, rfl⟩ <;> simp [init_model, h]

theorem init_model_channels_and_classes_witness :
    (init_model { argsW with dataset := "MNIST" } 10).c = 1
    ∧ (init_model argsW 100).c = 3
    ∧ (init_model argsW 100).num_classes = 100 :=
  ⟨(init_model_channels_and_classes { argsW with dataset := "MNIST" } 10).1 rfl,
   (init_model_channels_and_classes argsW 100).2.1 (by decide),
   (init_model_channels_and_classes argsW 100).2.2⟩

/-- Claim C8: an unrecognised dataset name falls through every branch of
`get_benchmark` and yields `None`, and an unrecognised strategy name falls
through every branch of `get_strategy` and yields `None`; neither method
raises or reports an error. -/
theorem unknown_names_return_none (args : Args) :
    (args.dataset ≠ "CIFAR100" → args.dataset ≠ "MNIST" → args.dataset ≠ "CUB200" →
      get_benchmark args = none)
    ∧ (args.strategy ≠ "JOINT" → args.strategy ≠ "NAIVE" → args.strategy ≠ "EWC" →
       args.strategy ≠ "LWF" → args.strategy ≠ "SI" → args.strategy ≠ "ICARL" →
      get_strategy args = none) := by
  constructor
  · intro h1 h2 h3
    simp [get_benchmark, h1, h2, h3]
  · intro h1 h2 h3 h4 h5 h6
    simp [get_strategy, h1, h2, h3, h4, h5, h6]

theorem unknown_names_return_none_witness :
    get_benchmark { argsW with dataset := "IMAGENET" } = none
    ∧ get_strategy { argsW with strategy := "GEM" } = none :=
  ⟨(unknown_names_return_none { argsW with dataset := "IMAGENET" }).1
      (by decide) (by decide) (by decide),
   (unknown_names_return_none { argsW with strategy := "GEM" }).2
      (by decide) (by decide) (by decide) (by decide) (by decide) (by decide)⟩

/-- Claim C9: `check_if_feature_extractor_is_unchanged` returns `True`
exactly when every pair of parameters at the same position of the two
feature extractors (Python `zip` truncates to the shorter sequence) agrees
at every common position of their data; in particular comparing a feature
extractor with an identical copy of itself returns `True`. -/
theorem check_unchanged_iff_pairwise_equal (m f : Model) :
    (check_if_feature_extractor_is_unchanged m f = true ↔
      ∀ p ∈ m.feature_extractor.zip f.feature_extractor,
        ∀ q ∈ p.1.data.zip p.2.data, q.1 = q.2)
    ∧ check_if_feature_extractor_is_unchanged m m = true := by
  constructor
  · rw [check_if_feature_extractor_is_unchanged, checkLoop_eq_true]
    constructor
    · intro h p hp
      exact (tensorNe_sum_zero p.1.data p.2.data).mp (h p hp)
    · intro h p hp
      exact (tensorNe_sum_zero p.1.data p.2.data).mpr (h p hp)
  · rw [check_if_feature_extractor_is_unchanged, checkLoop_eq_true]
    intro p hp
    rw [mem_zip_self m.feature_extractor p hp]
    exact (tensorNe_sum_zero p.2.data p.2.data).mpr (mem_zip_self p.2.data)

theorem check_unchanged_iff_pairwise_equal_witness :
    (check_if_feature_extractor_is_unchanged modelW1 modelW2 = true ↔
      ∀ p ∈ modelW1.feature_extractor.zip modelW2.feature_extractor,
        ∀ q ∈ p.1.data.zip p.2.data, q.1 = q.2)
    ∧ check_if_feature_extractor_is_unchanged modelW1 modelW1 = true :=
  check_unchanged_iff_pairwise_equal modelW1 modelW2

/-- Claim C10 (counterexample to "returns None on every path"): on a
concrete non-JOINT run, `run_experiment` does not return `None` — it
propagates the `TypeError` raised by the arity-mismatched check call. -/
theorem run_experiment_normal_path_not_none :
    (run_experiment { argsNaive with strategy := "EWC" } benchOneExp modelOneParam
        idUpd (fun _ => idUpd) idUpd 0 (fun _ => 0) 0).ret
      ≠ Except.ok none := by decide

/-- Claim C10 (amended): `run_experiment` never exposes its local
`results` list: a JOINT run returns `None`, a non-JOINT run raises
`TypeError` at the feature-extractor check instead of returning, and no
run returns a results list. -/
theorem run_experiment_never_returns_results
    (args : Args) (bench : Benchmark) (m0 : Model)
    (uJoint : List Int → List Int) (uExp : Nat → List Int → List Int)
    (uPost : List Int → List Int)
    (evJoint : Nat) (evExp : Nat → Nat) (evPost : Nat) :
    (args.strategy = "JOINT" →
      (run_experiment args bench m0 uJoint uExp uPost evJoint evExp evPost).ret
        = Except.ok none)
    ∧ (args.strategy ≠ "JOINT" →
      (run_experiment args bench m0 uJoint uExp uPost evJoint evExp evPost).ret
        = Except.error (PyErr.typeError checkTypeErrorMsg))
    ∧ ∀ rs : List Nat,
        (run_experiment args bench m0 uJoint uExp uPost evJoint evExp evPost).ret
          ≠ Except.ok (some rs) := by
  by_cases h : args.strategy = "JOINT"
  · refine ⟨fun _ => ?_, fun hne => absurd h hne, fun rs hr => ?_⟩
    · simp [run_experiment, h]
    · simp [run_experiment, h] at hr
  · refine ⟨fun hj => absurd hj h, fun _ => ?_, fun rs hr => ?_⟩
    · simp [run_experiment, if_neg h, callCheck_error]
    · simp [run_experiment, if_neg h, callCheck_error] at hr

theorem run_experiment_never_returns_results_witness :
    (run_experiment { argsW with strategy := "JOINT" } benchW modelW1 idUpd
        (fun _ => idUpd) idUpd 7 (fun k => k) 9).ret = Except.ok none
    ∧ (run_experiment argsW benchW modelW1 idUpd (fun _ => idUpd) idUpd
        7 (fun k => k) 9).ret = Except.error (PyErr.typeError checkTypeErrorMsg)
    ∧ (run_experiment argsW benchW modelW1 idUpd (fun _ => idUpd) idUpd
        7 (fun k => k) 9).ret ≠ Except.ok (some [7, 7, 9]) :=
  ⟨(run_experiment_never_returns_results { argsW with strategy := "JOINT" } benchW
      modelW1 idUpd (fun _ => idUpd) idUpd 7 (fun k => k) 9).1 rfl,
   (run_experiment_never_returns_results argsW benchW modelW1 idUpd
      (fun _ => idUpd) idUpd 7 (fun k => k) 9).2.1 (by decide),
   (run_experiment_never_returns_results argsW benchW modelW1 idUpd
      (fun _ => idUpd) idUpd 7 (fun k => k) 9).2.2 [7, 7, 9]⟩
